import Mathlib

/-!
Verification of the C shim layer of dradtke/gotk3 (files gtk/gtk.go.h and
glib/glib.go.h) against its natural-language specification.

The shims are embedded shallowly.  Pointers and GTypes are `Nat` (address 0 is
NULL).  Memory is an explicit `Heap` with one region per kind of native entity
the shims touch; native library calls are modelled as pure heap transformers
faithful to their documented behaviour, and each shim is the literal sequence
of native calls the C source makes.  Shims whose claims talk about which
arguments reach the native call additionally return a trace of `Event`s, one
per native call performed, recording the exact arguments passed.
-/

/-- The contents of one `GValue` cell: its `g_type` tag and its two data
words, as in the native struct layout. -/
structure GValue where
  g_type : Nat
  data0 : Nat
  data1 : Nat
deriving DecidableEq

/-- A zero-filled `GValue`, as produced by `g_new0`. -/
def GValue.zero : GValue := ⟨0, 0, 0⟩

/-- The contents of one `GError` cell: domain, code and a pointer to the
message string. -/
structure GError where
  domain : Nat
  code : Int
  message : Nat
deriving DecidableEq

/-- Explicit memory.  `next` is the allocator frontier: every address at or
above it is unallocated.  Each further field is one region of cells, indexed
by address. -/
structure Heap where
  next : Nat
  gvalues : Nat → GValue
  gtypes : Nat → Nat
  gpointers : Nat → Nat
  gerrors : Nat → GError
  marshals : Nat → Nat
  messages : Nat → String
  classes : Nat → Nat
  classTypes : Nat → Nat
  classNames : Nat → String
  fundamentals : Nat → Nat

/-- One native library call, recording the exact arguments the shim passed to
it and the value the native call returned. -/
inductive Event where
  | g_object_set_ev (object : Nat) (property_name : String) (value : Nat) (terminator : Nat)
  | g_closure_new_simple_ev (size : Nat) (data : Nat) (ret : Nat)
  | g_closure_set_marshal_ev (closure : Nat) (marshal : Nat)
  | g_new0_GValue_ev (n : Nat) (ret : Nat)
  | g_value_init_ev (value : Nat) (g_type : Nat) (ret : Nat)
  | gtk_message_dialog_new_ev (parent : Nat) (flags : Nat) (mtype : Nat) (buttons : Nat)
      (format : String) (args : List String) (ret : Nat)
  | gtk_tree_view_column_new_ev (title : String) (renderer : Nat) (attr : String)
      (column : Int) (terminator : Nat) (ret : Nat)
deriving DecidableEq

/-- Model of the native `g_new0 (GValue, n)`: returns a fresh pointer to `n`
zero-filled `GValue` cells and advances the allocator frontier past them. -/
def g_new0_GValue (h : Heap) (n : Nat) : Heap × Nat :=
  ({ h with
      next := h.next + n + 1,
      gvalues := fun a => if h.next ≤ a ∧ a < h.next + n then GValue.zero else h.gvalues a },
   h.next)

/-- Model of the native `g_new0 (GType, n)`: returns a fresh pointer to `n`
zero-filled `GType` cells and advances the allocator frontier past them. -/
def g_new0_GType (h : Heap) (n : Nat) : Heap × Nat :=
  ({ h with
      next := h.next + n + 1,
      gtypes := fun a => if h.next ≤ a ∧ a < h.next + n then 0 else h.gtypes a },
   h.next)

/-- Model of the native `g_value_init (value, g_type)`: stamps the cell at
`value` with `g_type` and returns `value`. -/
def g_value_init (h : Heap) (value : Nat) (g_type : Nat) : Heap × Nat :=
  ({ h with
      gvalues := fun a =>
        if a = value then { h.gvalues value with g_type := g_type } else h.gvalues a },
   value)

/-- Model of the native `g_closure_new_simple (size, data)`: allocates a fresh
closure block of `size` bytes and returns its address. -/
def g_closure_new_simple (h : Heap) (size : Nat) (data : Nat) : Heap × Nat :=
  ({ h with next := h.next + size + 1 }, h.next)

/-- Model of the native `g_closure_set_marshal (closure, marshal)`: stores the
marshaller pointer in the closure cell. -/
def g_closure_set_marshal (h : Heap) (closure : Nat) (marshal : Nat) : Heap :=
  { h with marshals := fun a => if a = closure then marshal else h.marshals a }

/-- Model constant for `sizeof (GClosure)`. -/
def sizeofGClosure : Nat := 64

/-- Address of the external Go marshaller `goMarshal` declared in
glib/glib.go.h; an arbitrary fixed nonzero code address. -/
def goMarshalAddr : Nat := 1

/-- C printf-style formatting over its format string, restricted to the `%s`
conversion actually used by the shims: `%s` consumes the next argument
verbatim, `%%` emits a literal percent sign, every other character is copied
literally.  This models the `g_strdup_vprintf` formatting the native
`gtk_message_dialog_new` applies to its format arguments. -/
def cFormat : List Char → List String → List Char
  | [], _ => []
  | '%' :: 's' :: rest, a :: args => a.data ++ cFormat rest args
  | '%' :: 's' :: rest, [] => '%' :: 's' :: cFormat rest []
  | '%' :: '%' :: rest, args => '%' :: cFormat rest args
  | c :: rest, args => c :: cFormat rest args

/-- `cFormat` on `String`. -/
def cFormatStr (fmt : String) (args : List String) : String :=
  ⟨cFormat fmt.data args⟩

/-- Model of the native `gtk_message_dialog_new (parent, flags, type, buttons,
format, ...)`: allocates a fresh dialog widget whose message text is the
result of formatting `format` with the variadic arguments, and returns the
widget. -/
def gtk_message_dialog_new (h : Heap) (parent : Nat) (flags : Nat) (mtype : Nat)
    (buttons : Nat) (format : String) (args : List String) : Heap × Nat :=
  ({ h with
      next := h.next + 1,
      messages := fun a => if a = h.next then cFormatStr format args else h.messages a },
   h.next)

/-- Model of the native `gtk_tree_view_column_new_with_attributes`: allocates
a fresh column and returns it. -/
def gtk_tree_view_column_new_with_attributes (h : Heap) (title : String) (renderer : Nat)
    (attr : String) (column : Int) : Heap × Nat :=
  ({ h with next := h.next + 1 }, h.next)

/- ===== Shims of glib/glib.go.h ===== -/

/-- C source: `return (G_TYPE_FROM_INSTANCE (instance));` — reads the
instance's class pointer and the class's `g_type`. -/
def _g_type_from_instance (h : Heap) (inst : Nat) : Nat :=
  h.classTypes (h.classes inst)

/-- C source: `g_object_set (object, property_name, *(gpointer **) val, NULL);`
— one native call; the value argument passed is the pointer stored at address
`val`, followed by the NULL terminator of the vararg list. -/
def _g_object_set_one (h : Heap) (object : Nat) (property_name : String) (val : Nat) :
    List Event :=
  [Event.g_object_set_ev object property_name (h.gpointers val) 0]

/-- C source: `valv = g_new0 (GValue, n); return (valv);`. -/
def alloc_gvalue_list (h : Heap) (n : Nat) : Heap × Nat :=
  g_new0_GValue h n

/-- C source: `valv[i] = *val;` — copies the `GValue` struct at `val` into
element `i` of the array at `valv`, with no bounds check. -/
def val_list_insert (h : Heap) (valv : Nat) (i : Nat) (val : Nat) : Heap :=
  { h with gvalues := fun a => if a = valv + i then h.gvalues val else h.gvalues a }

/-- C source: `return (g_new0 (GValue, 1));`. -/
def _g_value_alloc (h : Heap) : Heap × Nat :=
  g_new0_GValue h 1

/-- C source: `value = g_new0 (GValue, 1); return (g_value_init (value,
g_type));` — two native calls, traced in order. -/
def _g_value_init (h : Heap) (g_type : Nat) : Heap × (List Event × Nat) :=
  let r1 := g_new0_GValue h 1
  let r2 := g_value_init r1.1 r1.2 g_type
  (r2.1,
   ([Event.g_new0_GValue_ev 1 r1.2, Event.g_value_init_ev r1.2 g_type r2.2], r2.2))

/-- C source: `return (G_IS_VALUE (val));` — the native macro holds iff `val`
is non-NULL and its cell carries a nonzero `g_type`. -/
def _g_is_value (h : Heap) (val : Nat) : Bool :=
  val != 0 && (h.gvalues val).g_type != 0

/-- C source: `return (G_VALUE_TYPE (val));` — reads the cell's `g_type`. -/
def _g_value_type (h : Heap) (val : Nat) : Nat :=
  (h.gvalues val).g_type

/-- C source: `return (G_TYPE_FUNDAMENTAL (type));` — the native fundamental
type table lookup. -/
def _g_value_fundamental (h : Heap) (ty : Nat) : Nat :=
  h.fundamentals ty

/-- C source: `closure = g_closure_new_simple (sizeof (GClosure), NULL);
g_closure_set_marshal (closure, (GClosureMarshal) goMarshal); return
closure;` — two native calls, traced in order. -/
def _g_closure_new (h : Heap) : Heap × (List Event × Nat) :=
  let r1 := g_closure_new_simple h sizeofGClosure 0
  let h2 := g_closure_set_marshal r1.1 r1.2 goMarshalAddr
  (h2,
   ([Event.g_closure_new_simple_ev sizeofGClosure 0 r1.2,
     Event.g_closure_set_marshal_ev r1.2 goMarshalAddr], r1.2))

/- ===== Variant type macros and accessors ===== -/

/-- A `const GVariantType *` is a pointer to a static type string owned by the
native library; pointer identity is identified with that string constant. -/
abbrev GVariantTypePtr := String

/-- Native macro `G_VARIANT_TYPE_BOOLEAN`, the type string constant. -/
def G_VARIANT_TYPE_BOOLEAN : GVariantTypePtr := "b"

/-- Native macro `G_VARIANT_TYPE_BYTE`. -/
def G_VARIANT_TYPE_BYTE : GVariantTypePtr := "y"

/-- Native macro `G_VARIANT_TYPE_INT16`. -/
def G_VARIANT_TYPE_INT16 : GVariantTypePtr := "n"

/-- Native macro `G_VARIANT_TYPE_UINT16`. -/
def G_VARIANT_TYPE_UINT16 : GVariantTypePtr := "q"

/-- Native macro `G_VARIANT_TYPE_INT32`. -/
def G_VARIANT_TYPE_INT32 : GVariantTypePtr := "i"

/-- Native macro `G_VARIANT_TYPE_UINT32`. -/
def G_VARIANT_TYPE_UINT32 : GVariantTypePtr := "u"

/-- Native macro `G_VARIANT_TYPE_INT64`. -/
def G_VARIANT_TYPE_INT64 : GVariantTypePtr := "x"

/-- Native macro `G_VARIANT_TYPE_UINT64`. -/
def G_VARIANT_TYPE_UINT64 : GVariantTypePtr := "t"

/-- Native macro `G_VARIANT_TYPE_HANDLE`. -/
def G_VARIANT_TYPE_HANDLE : GVariantTypePtr := "h"

/-- Native macro `G_VARIANT_TYPE_DOUBLE`. -/
def G_VARIANT_TYPE_DOUBLE : GVariantTypePtr := "d"

/-- Native macro `G_VARIANT_TYPE_STRING`. -/
def G_VARIANT_TYPE_STRING : GVariantTypePtr := "s"

/-- Native macro `G_VARIANT_TYPE_OBJECT_PATH`. -/
def G_VARIANT_TYPE_OBJECT_PATH : GVariantTypePtr := "o"

/-- Native macro `G_VARIANT_TYPE_SIGNATURE`. -/
def G_VARIANT_TYPE_SIGNATURE : GVariantTypePtr := "g"

/-- Native macro `G_VARIANT_TYPE_VARIANT`. -/
def G_VARIANT_TYPE_VARIANT : GVariantTypePtr := "v"

/-- Native macro `G_VARIANT_TYPE_ANY`. -/
def G_VARIANT_TYPE_ANY : GVariantTypePtr := "*"

/-- Native macro `G_VARIANT_TYPE_BASIC`. -/
def G_VARIANT_TYPE_BASIC : GVariantTypePtr := "?"

/-- Native macro `G_VARIANT_TYPE_MAYBE`. -/
def G_VARIANT_TYPE_MAYBE : GVariantTypePtr := "m*"

/-- Native macro `G_VARIANT_TYPE_ARRAY`. -/
def G_VARIANT_TYPE_ARRAY : GVariantTypePtr := "a*"

/-- Native macro `G_VARIANT_TYPE_TUPLE`. -/
def G_VARIANT_TYPE_TUPLE : GVariantTypePtr := "r"

/-- Native macro `G_VARIANT_TYPE_UNIT`. -/
def G_VARIANT_TYPE_UNIT : GVariantTypePtr := "()"

/-- Native macro `G_VARIANT_TYPE_DICT_ENTRY`. -/
def G_VARIANT_TYPE_DICT_ENTRY : GVariantTypePtr := "\x7b?*\x7d"

/-- Native macro `G_VARIANT_TYPE_DICTIONARY`. -/
def G_VARIANT_TYPE_DICTIONARY : GVariantTypePtr := "a\x7b?*\x7d"

/-- Native macro `G_VARIANT_TYPE_STRING_ARRAY`. -/
def G_VARIANT_TYPE_STRING_ARRAY : GVariantTypePtr := "as"

/-- Native macro `G_VARIANT_TYPE_OBJECT_PATH_ARRAY`. -/
def G_VARIANT_TYPE_OBJECT_PATH_ARRAY : GVariantTypePtr := "ao"

/-- Native macro `G_VARIANT_TYPE_BYTESTRING`. -/
def G_VARIANT_TYPE_BYTESTRING : GVariantTypePtr := "ay"

/-- Native macro `G_VARIANT_TYPE_BYTESTRING_ARRAY`. -/
def G_VARIANT_TYPE_BYTESTRING_ARRAY : GVariantTypePtr := "aay"

/-- Native macro `G_VARIANT_TYPE_VARDICT`. -/
def G_VARIANT_TYPE_VARDICT : GVariantTypePtr := "a\x7bsv\x7d"

/-- C source: `return (G_VARIANT_TYPE_BOOLEAN);`. -/
def _g_variant_type_boolean (_ : Unit) : GVariantTypePtr := G_VARIANT_TYPE_BOOLEAN

/-- C source: `return (G_VARIANT_TYPE_BYTE);`. -/
def _g_variant_type_byte (_ : Unit) : GVariantTypePtr := G_VARIANT_TYPE_BYTE

/-- C source: `return (G_VARIANT_TYPE_INT16);`. -/
def _g_variant_type_int16 (_ : Unit) : GVariantTypePtr := G_VARIANT_TYPE_INT16

/-- C source: `return (G_VARIANT_TYPE_UINT16);`. -/
def _g_variant_type_uint16 (_ : Unit) : GVariantTypePtr := G_VARIANT_TYPE_UINT16

/-- C source: `return (G_VARIANT_TYPE_INT32);`. -/
def _g_variant_type_int32 (_ : Unit) : GVariantTypePtr := G_VARIANT_TYPE_INT32

/-- C source: `return (G_VARIANT_TYPE_UINT32);`. -/
def _g_variant_type_uint32 (_ : Unit) : GVariantTypePtr := G_VARIANT_TYPE_UINT32

/-- C source: `return (G_VARIANT_TYPE_INT64);`. -/
def _g_variant_type_int64 (_ : Unit) : GVariantTypePtr := G_VARIANT_TYPE_INT64

/-- C source: `return (G_VARIANT_TYPE_UINT64);`. -/
def _g_variant_type_uint64 (_ : Unit) : GVariantTypePtr := G_VARIANT_TYPE_UINT64

/-- C source: `return (G_VARIANT_TYPE_HANDLE);`. -/
def _g_variant_type_handle (_ : Unit) : GVariantTypePtr := G_VARIANT_TYPE_HANDLE

/-- C source: `return (G_VARIANT_TYPE_DOUBLE);`. -/
def _g_variant_type_double (_ : Unit) : GVariantTypePtr := G_VARIANT_TYPE_DOUBLE

/-- C source: `return (G_VARIANT_TYPE_STRING);`. -/
def _g_variant_type_string (_ : Unit) : GVariantTypePtr := G_VARIANT_TYPE_STRING

/-- C source: `return (G_VARIANT_TYPE_OBJECT_PATH);`. -/
def _g_variant_type_object_path (_ : Unit) : GVariantTypePtr := G_VARIANT_TYPE_OBJECT_PATH

/-- C source: `return (G_VARIANT_TYPE_SIGNATURE);`. -/
def _g_variant_type_signature (_ : Unit) : GVariantTypePtr := G_VARIANT_TYPE_SIGNATURE

/-- C source: `return (G_VARIANT_TYPE_VARIANT);`. -/
def _g_variant_type_variant (_ : Unit) : GVariantTypePtr := G_VARIANT_TYPE_VARIANT

/-- C source: `return (G_VARIANT_TYPE_ANY);`. -/
def _g_variant_type_any (_ : Unit) : GVariantTypePtr := G_VARIANT_TYPE_ANY

/-- C source: `return (G_VARIANT_TYPE_BASIC);`. -/
def _g_variant_type_basic (_ : Unit) : GVariantTypePtr := G_VARIANT_TYPE_BASIC

/-- C source: `return (G_VARIANT_TYPE_MAYBE);`. -/
def _g_variant_type_maybe (_ : Unit) : GVariantTypePtr := G_VARIANT_TYPE_MAYBE

/-- C source: `return (G_VARIANT_TYPE_ARRAY);`. -/
def _g_variant_type_array (_ : Unit) : GVariantTypePtr := G_VARIANT_TYPE_ARRAY

/-- C source: `return (G_VARIANT_TYPE_TUPLE);`. -/
def _g_variant_type_tuple (_ : Unit) : GVariantTypePtr := G_VARIANT_TYPE_TUPLE

/-- C source: `return (G_VARIANT_TYPE_UNIT);`. -/
def _g_variant_type_unit (_ : Unit) : GVariantTypePtr := G_VARIANT_TYPE_UNIT

/-- C source: `return (G_VARIANT_TYPE_DICT_ENTRY);`. -/
def _g_variant_type_dict_entry (_ : Unit) : GVariantTypePtr := G_VARIANT_TYPE_DICT_ENTRY

/-- C source: `return (G_VARIANT_TYPE_DICTIONARY);`. -/
def _g_variant_type_dictionary (_ : Unit) : GVariantTypePtr := G_VARIANT_TYPE_DICTIONARY

/-- C source: `return (G_VARIANT_TYPE_STRING_ARRAY);`. -/
def _g_variant_type_string_array (_ : Unit) : GVariantTypePtr := G_VARIANT_TYPE_STRING_ARRAY

/-- C source: `return (G_VARIANT_TYPE_OBJECT_PATH_ARRAY);`. -/
def _g_variant_type_object_path_array (_ : Unit) : GVariantTypePtr := G_VARIANT_TYPE_OBJECT_PATH_ARRAY

/-- C source: `return (G_VARIANT_TYPE_BYTESTRING);`. -/
def _g_variant_type_bytestring (_ : Unit) : GVariantTypePtr := G_VARIANT_TYPE_BYTESTRING

/-- C source: `return (G_VARIANT_TYPE_BYTESTRING_ARRAY);`. -/
def _g_variant_type_bytestring_array (_ : Unit) : GVariantTypePtr := G_VARIANT_TYPE_BYTESTRING_ARRAY

/-- C source: `return (G_VARIANT_TYPE_VARDICT);`. -/
def _g_variant_type_vardict (_ : Unit) : GVariantTypePtr := G_VARIANT_TYPE_VARDICT

/- ===== Shims of gtk/gtk.go.h ===== -/

/-- C source: `return ((GType *) g_new0 (GType, n));`. -/
def alloc_types (h : Heap) (n : Nat) : Heap × Nat :=
  g_new0_GType h n

/-- C source: `types[n] = t;` — writes element `n` of the `GType` array at
`types`, with no bounds check. -/
def set_type (h : Heap) (types : Nat) (n : Nat) (t : Nat) : Heap :=
  { h with gtypes := fun a => if a = types + n then t else h.gtypes a }

/-- C source: `tvc = gtk_tree_view_column_new_with_attributes (title,
renderer, attribute, column, NULL); return (tvc);` — one native call with a
NULL vararg terminator, traced. -/
def _gtk_tree_view_column_new_with_attributes_one (h : Heap) (title : String)
    (renderer : Nat) (attr : String) (column : Int) : (Heap × Nat) × List Event :=
  let r := gtk_tree_view_column_new_with_attributes h title renderer attr column
  (r, [Event.gtk_tree_view_column_new_ev title renderer attr column 0 r.2])

/-- C source: `w = gtk_message_dialog_new (parent, flags, type, buttons,
"%s", msg); return (w);` — one native call with the fixed format string
`"%s"` and `msg` as the sole vararg, traced. -/
def _gtk_message_dialog_new (h : Heap) (parent : Nat) (flags : Nat) (mtype : Nat)
    (buttons : Nat) (msg : String) : (Heap × Nat) × List Event :=
  let r := gtk_message_dialog_new h parent flags mtype buttons "%s" [msg]
  (r, [Event.gtk_message_dialog_new_ev parent flags mtype buttons "%s" [msg] r.2])

/-- C source: `return error->message;` — an unconditional field read through
the `error` pointer, with no NULL check. -/
def error_get_message (h : Heap) (error : Nat) : Nat :=
  (h.gerrors error).message

/-- C source: `return G_OBJECT_CLASS_NAME (G_OBJECT_GET_CLASS (object));` —
reads the object's class pointer and the class's registered name. -/
def object_get_class_name (h : Heap) (object : Nat) : String :=
  h.classNames (h.classes object)

/- ===== A concrete heap for counterexamples and witnesses ===== -/

/-- A concrete heap: the allocator frontier is 1 and every pointer cell at
address `a` stores `a + 1`, so dereferencing is observably different from the
identity. -/
def heap0 : Heap where
  next := 1
  gvalues := fun a => ⟨a, a + 1, a + 2⟩
  gtypes := fun a => a
  gpointers := fun a => a + 1
  gerrors := fun a => ⟨a, 0, a + 1⟩
  marshals := fun _ => 0
  messages := fun _ => ""
  classes := fun a => a
  classTypes := fun a => a
  classNames := fun _ => ""
  fundamentals := fun a => a

/- ===== Helper lemmas ===== -/

/-- Formatting the fixed format string `"%s"` with a single argument yields
that argument verbatim; no character of the argument is reinterpreted. -/
theorem cFormatStr_percent_s (msg : String) : cFormatStr "%s" [msg] = msg := by
  cases msg with
  | mk d =>
    show cFormatStr ⟨['%', 's']⟩ [⟨d⟩] = ⟨d⟩
    simp [cFormatStr, cFormat]

/- ===== C1 ===== -/

/-- C1, counterexample: the claim that every shim passes exactly its own
arguments unchanged fails at `_g_object_set_one`: with `val = 0` in `heap0`
the value argument passed to `g_object_set` is the dereferenced pointer
`heap0.gpointers 0 = 1`, not the argument `0` itself. -/
theorem C1_object_set_cex :
    ¬ (_g_object_set_one heap0 0 "p" 0 = [Event.g_object_set_ev 0 "p" 0 0]) := by
  decide

/-- C1, amended: `_g_object_set_one` passes `object` and `property_name`
unchanged but passes the gpointer loaded from `val` (the C expression
`*(gpointer **) val`) plus a NULL vararg terminator to `g_object_set`;
`_gtk_message_dialog_new` passes `parent`, `flags`, `type`, `buttons` and
`msg` unchanged to `gtk_message_dialog_new`, inserting the fixed format
string `"%s"` before `msg`, and returns that call's result unchanged. -/
theorem C1_forwarding (h : Heap) (object : Nat) (name : String) (val : Nat)
    (parent flags mtype buttons : Nat) (msg : String) :
    _g_object_set_one h object name val
      = [Event.g_object_set_ev object name (h.gpointers val) 0] ∧
    (_gtk_message_dialog_new h parent flags mtype buttons msg).2
      = [Event.gtk_message_dialog_new_ev parent flags mtype buttons "%s" [msg]
          (_gtk_message_dialog_new h parent flags mtype buttons msg).1.2] ∧
    (_gtk_message_dialog_new h parent flags mtype buttons msg).1
      = gtk_message_dialog_new h parent flags mtype buttons "%s" [msg] :=
  ⟨rfl, rfl, rfl⟩

/- ===== C2 ===== -/

/-- C2, counterexample: the claim that every function consists of a single
direct forward fails at `_g_closure_new`, whose trace on `heap0` contains two
native calls (`g_closure_new_simple` then `g_closure_set_marshal`), not
one. -/
theorem C2_closure_new_cex :
    ¬ ((_g_closure_new heap0).2.1.length = 1) := by
  decide

/-- C2, amended: every function forwards to pre-existing native library calls
or macros with no logic of its own, but not always to exactly one:
`_g_closure_new` makes exactly the two native calls `g_closure_new_simple
(sizeof (GClosure), NULL)` then `g_closure_set_marshal (closure, goMarshal)`
and returns the new closure, and `_g_value_init` makes exactly the two native
calls `g_new0 (GValue, 1)` then `g_value_init (value, g_type)` and returns
the initialised value. -/
theorem C2_two_call_traces (h : Heap) (g_type : Nat) :
    (_g_closure_new h).2.1
      = [Event.g_closure_new_simple_ev sizeofGClosure 0 h.next,
         Event.g_closure_set_marshal_ev h.next goMarshalAddr] ∧
    (_g_closure_new h).2.2 = h.next ∧
    (_g_value_init h g_type).2.1
      = [Event.g_new0_GValue_ev 1 h.next,
         Event.g_value_init_ev h.next g_type h.next] ∧
    (_g_value_init h g_type).2.2 = h.next :=
  ⟨rfl, rfl, rfl, rfl⟩

/- ===== C3 ===== -/

/-- C3: each `_g_variant_type_*` accessor returns exactly the type descriptor
denoted by the corresponding `G_VARIANT_TYPE_*` macro, and any two calls to
the same accessor return the same singleton pointer. -/
theorem C3_variant_type_accessors :
    ∀ u v : Unit,
      (_g_variant_type_boolean u = G_VARIANT_TYPE_BOOLEAN ∧
        _g_variant_type_boolean u = _g_variant_type_boolean v) ∧
      (_g_variant_type_byte u = G_VARIANT_TYPE_BYTE ∧
        _g_variant_type_byte u = _g_variant_type_byte v) ∧
      (_g_variant_type_int16 u = G_VARIANT_TYPE_INT16 ∧
        _g_variant_type_int16 u = _g_variant_type_int16 v) ∧
      (_g_variant_type_uint16 u = G_VARIANT_TYPE_UINT16 ∧
        _g_variant_type_uint16 u = _g_variant_type_uint16 v) ∧
      (_g_variant_type_int32 u = G_VARIANT_TYPE_INT32 ∧
        _g_variant_type_int32 u = _g_variant_type_int32 v) ∧
      (_g_variant_type_uint32 u = G_VARIANT_TYPE_UINT32 ∧
        _g_variant_type_uint32 u = _g_variant_type_uint32 v) ∧
      (_g_variant_type_int64 u = G_VARIANT_TYPE_INT64 ∧
        _g_variant_type_int64 u = _g_variant_type_int64 v) ∧
      (_g_variant_type_uint64 u = G_VARIANT_TYPE_UINT64 ∧
        _g_variant_type_uint64 u = _g_variant_type_uint64 v) ∧
      (_g_variant_type_handle u = G_VARIANT_TYPE_HANDLE ∧
        _g_variant_type_handle u = _g_variant_type_handle v) ∧
      (_g_variant_type_double u = G_VARIANT_TYPE_DOUBLE ∧
        _g_variant_type_double u = _g_variant_type_double v) ∧
      (_g_variant_type_string u = G_VARIANT_TYPE_STRING ∧
        _g_variant_type_string u = _g_variant_type_string v) ∧
      (_g_variant_type_object_path u = G_VARIANT_TYPE_OBJECT_PATH ∧
        _g_variant_type_object_path u = _g_variant_type_object_path v) ∧
      (_g_variant_type_signature u = G_VARIANT_TYPE_SIGNATURE ∧
        _g_variant_type_signature u = _g_variant_type_signature v) ∧
      (_g_variant_type_variant u = G_VARIANT_TYPE_VARIANT ∧
        _g_variant_type_variant u = _g_variant_type_variant v) ∧
      (_g_variant_type_any u = G_VARIANT_TYPE_ANY ∧
        _g_variant_type_any u = _g_variant_type_any v) ∧
      (_g_variant_type_basic u = G_VARIANT_TYPE_BASIC ∧
        _g_variant_type_basic u = _g_variant_type_basic v) ∧
      (_g_variant_type_maybe u = G_VARIANT_TYPE_MAYBE ∧
        _g_variant_type_maybe u = _g_variant_type_maybe v) ∧
      (_g_variant_type_array u = G_VARIANT_TYPE_ARRAY ∧
        _g_variant_type_array u = _g_variant_type_array v) ∧
      (_g_variant_type_tuple u = G_VARIANT_TYPE_TUPLE ∧
        _g_variant_type_tuple u = _g_variant_type_tuple v) ∧
      (_g_variant_type_unit u = G_VARIANT_TYPE_UNIT ∧
        _g_variant_type_unit u = _g_variant_type_unit v) ∧
      (_g_variant_type_dict_entry u = G_VARIANT_TYPE_DICT_ENTRY ∧
        _g_variant_type_dict_entry u = _g_variant_type_dict_entry v) ∧
      (_g_variant_type_dictionary u = G_VARIANT_TYPE_DICTIONARY ∧
        _g_variant_type_dictionary u = _g_variant_type_dictionary v) ∧
      (_g_variant_type_string_array u = G_VARIANT_TYPE_STRING_ARRAY ∧
        _g_variant_type_string_array u = _g_variant_type_string_array v) ∧
      (_g_variant_type_object_path_array u = G_VARIANT_TYPE_OBJECT_PATH_ARRAY ∧
        _g_variant_type_object_path_array u = _g_variant_type_object_path_array v) ∧
      (_g_variant_type_bytestring u = G_VARIANT_TYPE_BYTESTRING ∧
        _g_variant_type_bytestring u = _g_variant_type_bytestring v) ∧
      (_g_variant_type_bytestring_array u = G_VARIANT_TYPE_BYTESTRING_ARRAY ∧
        _g_variant_type_bytestring_array u = _g_variant_type_bytestring_array v) ∧
      (_g_variant_type_vardict u = G_VARIANT_TYPE_VARDICT ∧
        _g_variant_type_vardict u = _g_variant_type_vardict v) := by
  intro u v
  exact ⟨⟨rfl, rfl⟩, ⟨rfl, rfl⟩, ⟨rfl, rfl⟩, ⟨rfl, rfl⟩, ⟨rfl, rfl⟩, ⟨rfl, rfl⟩,
    ⟨rfl, rfl⟩, ⟨rfl, rfl⟩, ⟨rfl, rfl⟩, ⟨rfl, rfl⟩, ⟨rfl, rfl⟩, ⟨rfl, rfl⟩,
    ⟨rfl, rfl⟩, ⟨rfl, rfl⟩, ⟨rfl, rfl⟩, ⟨rfl, rfl⟩, ⟨rfl, rfl⟩, ⟨rfl, rfl⟩,
    ⟨rfl, rfl⟩, ⟨rfl, rfl⟩, ⟨rfl, rfl⟩, ⟨rfl, rfl⟩, ⟨rfl, rfl⟩, ⟨rfl, rfl⟩,
    ⟨rfl, rfl⟩, ⟨rfl, rfl⟩, ⟨rfl, rfl⟩⟩

/- ===== C4 ===== -/

/-- C4: `val_list_insert` and `set_type` are stateless pass-throughs: their
result depends only on their explicit arguments and the input heap, they touch
no region of the heap other than the single cell their pointer arguments
address (every other region and every other cell is returned unchanged), and
repeating the same call on its own output heap changes nothing further, as a
call reading hidden mutable state could not guarantee. -/
theorem C4_stateless (h : Heap) (valv i val types n t : Nat) :
    ((val_list_insert h valv i val).next = h.next ∧
     (val_list_insert h valv i val).gtypes = h.gtypes ∧
     (val_list_insert h valv i val).gpointers = h.gpointers ∧
     (val_list_insert h valv i val).gerrors = h.gerrors ∧
     (val_list_insert h valv i val).marshals = h.marshals ∧
     (val_list_insert h valv i val).messages = h.messages ∧
     ∀ a, a ≠ valv + i → (val_list_insert h valv i val).gvalues a = h.gvalues a) ∧
    ((set_type h types n t).next = h.next ∧
     (set_type h types n t).gvalues = h.gvalues ∧
     (set_type h types n t).gpointers = h.gpointers ∧
     (set_type h types n t).gerrors = h.gerrors ∧
     ∀ a, a ≠ types + n → (set_type h types n t).gtypes a = h.gtypes a) ∧
    (∀ a, (val_list_insert (val_list_insert h valv i val) valv i val).gvalues a
        = (val_list_insert h valv i val).gvalues a) ∧
    (∀ a, (set_type (set_type h types n t) types n t).gtypes a
        = (set_type h types n t).gtypes a) := by
  refine ⟨⟨rfl, rfl, rfl, rfl, rfl, rfl, ?_⟩, ⟨rfl, rfl, rfl, rfl, ?_⟩, ?_, ?_⟩
  · intro a ha
    simp only [val_list_insert]
    rw [if_neg ha]
  · intro a ha
    simp only [set_type]
    rw [if_neg ha]
  · intro a
    by_cases hc : a = valv + i
    · subst hc
      by_cases hv : val = valv + i <;> simp [val_list_insert, hv]
    · simp only [val_list_insert]
      rw [if_neg hc, if_neg hc]
  · intro a
    by_cases hc : a = types + n
    · subst hc
      simp [set_type]
    · simp only [set_type]
      rw [if_neg hc, if_neg hc]

/-- C4, witness at concrete inputs: writing element 1 of the array at 4
leaves the unrelated cell 7 of the same region unchanged, in both shims. -/
theorem C4_stateless_w :
    (val_list_insert heap0 4 1 9).gvalues 7 = heap0.gvalues 7 ∧
    (set_type heap0 4 1 9).gtypes 7 = heap0.gtypes 7 :=
  ⟨(C4_stateless heap0 4 1 9 4 1 9).1.2.2.2.2.2.2 7 (by decide),
   (C4_stateless heap0 4 1 9 4 1 9).2.1.2.2.2.2 7 (by decide)⟩

/- ===== C5 ===== -/

/-- C5: no shim validates its input: `error_get_message` performs its field
read unconditionally for every pointer, including the NULL pointer 0, with no
error branch, and `val_list_insert` performs its write at index `i` for every
`i`, with no bounds check — the characterising equations hold with no
precondition at all. -/
theorem C5_no_validation (h : Heap) (err : Nat) (valv i val : Nat) :
    error_get_message h err = (h.gerrors err).message ∧
    error_get_message h 0 = (h.gerrors 0).message ∧
    (val_list_insert h valv i val).gvalues (valv + i) = h.gvalues val := by
  refine ⟨rfl, rfl, ?_⟩
  simp [val_list_insert]

/- ===== C6 ===== -/

/-- C6, counterexample: the claim that every function only forwards pointers
and allocates nothing fails at `alloc_gvalue_list`: on `heap0` it advances
the allocator frontier (from 1 to 5 for a 3-element request), i.e. it
allocates. -/
theorem C6_alloc_cex :
    ¬ ((alloc_gvalue_list heap0 3).1.next = heap0.next) := by
  decide

/-- C6, amended: the repository defines no memory layout, lifecycle or
invariant of its own and most functions only forward pointers, but
`alloc_gvalue_list` and `alloc_types` do allocate fresh memory (each is
exactly the native allocation `g_new0`, returning the fresh frontier pointer
and advancing the frontier), and `val_list_insert` copies the whole `GValue`
struct that `val` addresses by value into the array slot; `error_get_message`
by contrast forwards a stored pointer unchanged. -/
theorem C6_allocation (h : Heap) (n valv i val : Nat) :
    alloc_gvalue_list h n = g_new0_GValue h n ∧
    alloc_types h n = g_new0_GType h n ∧
    (alloc_gvalue_list h n).2 = h.next ∧
    (alloc_gvalue_list h n).1.next = h.next + n + 1 ∧
    (alloc_types h n).1.next = h.next + n + 1 ∧
    (val_list_insert h valv i val).gvalues (valv + i) = h.gvalues val ∧
    error_get_message h val = (h.gerrors val).message := by
  refine ⟨rfl, rfl, rfl, rfl, rfl, ?_, rfl⟩
  simp [val_list_insert]

/- ===== C7 ===== -/

/-- C7: for every `msg`, `_gtk_message_dialog_new` calls
`gtk_message_dialog_new` with the fixed format string `"%s"` and `msg` as the
sole format argument, so the created dialog's message text equals `msg`
verbatim — also when `msg` itself contains conversion specifiers, since `msg`
is never interpreted as a format string. -/
theorem C7_dialog_message_verbatim (h : Heap) (parent flags mtype buttons : Nat)
    (msg : String) :
    (_gtk_message_dialog_new h parent flags mtype buttons msg).2
      = [Event.gtk_message_dialog_new_ev parent flags mtype buttons "%s" [msg]
          (_gtk_message_dialog_new h parent flags mtype buttons msg).1.2] ∧
    (_gtk_message_dialog_new h parent flags mtype buttons msg).1.1.messages
        (_gtk_message_dialog_new h parent flags mtype buttons msg).1.2 = msg := by
  refine ⟨rfl, ?_⟩
  show (if h.next = h.next then cFormatStr "%s" [msg] else h.messages h.next) = msg
  rw [if_pos rfl, cFormatStr_percent_s]

/- ===== C8 ===== -/

/-- C8: `val_list_insert h valv i val` sets element `i` of the array at
`valv` to the `GValue` struct that `val` points to and leaves every element
at an index other than `i` unchanged; `set_type h types n t` sets element `n`
of the array at `types` to `t` and leaves every other element unchanged. -/
theorem C8_insert_frame (h : Heap) (valv i val types n t : Nat) :
    (val_list_insert h valv i val).gvalues (valv + i) = h.gvalues val ∧
    (∀ j, j ≠ i → (val_list_insert h valv i val).gvalues (valv + j)
        = h.gvalues (valv + j)) ∧
    (set_type h types n t).gtypes (types + n) = t ∧
    (∀ j, j ≠ n → (set_type h types n t).gtypes (types + j)
        = h.gtypes (types + j)) := by
  refine ⟨?_, ?_, ?_, ?_⟩
  · simp [val_list_insert]
  · intro j hj
    simp only [val_list_insert]
    rw [if_neg fun hc => hj (Nat.add_left_cancel hc)]
  · simp [set_type]
  · intro j hj
    simp only [set_type]
    rw [if_neg fun hc => hj (Nat.add_left_cancel hc)]

/-- C8, witness at concrete inputs: after writing element 1 of the array at
4, element 2 of that array is unchanged, in both shims. -/
theorem C8_insert_frame_w :
    (val_list_insert heap0 4 1 9).gvalues (4 + 2) = heap0.gvalues (4 + 2) ∧
    (set_type heap0 4 1 9).gtypes (4 + 2) = heap0.gtypes (4 + 2) :=
  ⟨(C8_insert_frame heap0 4 1 9 4 1 9).2.1 2 (by decide),
   (C8_insert_frame heap0 4 1 9 4 1 9).2.2.2 2 (by decide)⟩

/- ===== C9 ===== -/

/-- C9: `alloc_gvalue_list n` returns the fresh frontier pointer to `n`
`GValue` cells every one of which is zero-filled, `alloc_types n` likewise
returns fresh zeroed `GType` cells, and `_g_value_alloc` returns a fresh
zero-filled `GValue` on which `G_IS_VALUE` does not hold. -/
theorem C9_alloc_zero (h : Heap) (n k : Nat) (hk : k < n) :
    (alloc_gvalue_list h n).2 = h.next ∧
    h.next < (alloc_gvalue_list h n).1.next ∧
    (alloc_gvalue_list h n).1.gvalues ((alloc_gvalue_list h n).2 + k) = GValue.zero ∧
    (alloc_types h n).2 = h.next ∧
    h.next < (alloc_types h n).1.next ∧
    (alloc_types h n).1.gtypes ((alloc_types h n).2 + k) = 0 ∧
    (_g_value_alloc h).1.gvalues (_g_value_alloc h).2 = GValue.zero ∧
    _g_is_value (_g_value_alloc h).1 (_g_value_alloc h).2 = false := by
  refine ⟨rfl, ?_, ?_, rfl, ?_, ?_, ?_, ?_⟩
  · show h.next < h.next + n + 1
    omega
  · show (if h.next ≤ h.next + k ∧ h.next + k < h.next + n then GValue.zero
        else h.gvalues (h.next + k)) = GValue.zero
    rw [if_pos ⟨Nat.le_add_right _ _, Nat.add_lt_add_left hk _⟩]
  · show h.next < h.next + n + 1
    omega
  · show (if h.next ≤ h.next + k ∧ h.next + k < h.next + n then 0
        else h.gtypes (h.next + k)) = 0
    rw [if_pos ⟨Nat.le_add_right _ _, Nat.add_lt_add_left hk _⟩]
  · show (if h.next ≤ h.next ∧ h.next < h.next + 1 then GValue.zero
        else h.gvalues h.next) = GValue.zero
    rw [if_pos ⟨Nat.le_refl _, Nat.lt_succ_self _⟩]
  · have hz : (_g_value_alloc h).1.gvalues (_g_value_alloc h).2 = GValue.zero := by
      show (if h.next ≤ h.next ∧ h.next < h.next + 1 then GValue.zero
          else h.gvalues h.next) = GValue.zero
      rw [if_pos ⟨Nat.le_refl _, Nat.lt_succ_self _⟩]
    simp only [_g_is_value, hz]
    simp [GValue.zero]

/-- C9, witness at concrete inputs: both cells of a 2-element allocation on
`heap0` come back zero-filled, and a freshly allocated `GValue` fails
`G_IS_VALUE`. -/
theorem C9_alloc_zero_w :
    (alloc_gvalue_list heap0 2).1.gvalues ((alloc_gvalue_list heap0 2).2 + 1)
        = GValue.zero ∧
    _g_is_value (_g_value_alloc heap0).1 (_g_value_alloc heap0).2 = false :=
  ⟨(C9_alloc_zero heap0 2 1 (by decide)).2.2.1,
   (C9_alloc_zero heap0 2 1 (by decide)).2.2.2.2.2.2.2⟩
